import Mathlib

/-!
Verification development for the `ceph-mgr-endpoint-controller` repository.

The repository is a small Go controller that discovers Ceph manager service
URLs (dashboard, prometheus), resolves each URL to an IP/port endpoint, and
reconciles a Kubernetes EndpointSlice per configured service.  The snapshot
contains two resolver variants:

* the strict variant (`src/unnamed/part_001`, also embedded in
  `src/README.md`): validates the port range `[1,65535]` and rejects
  hostnames that are not literal IP addresses;
* the `src/main.go` variant: performs no port-range validation and falls
  back to DNS resolution (`net.LookupIP`) for non-literal hosts, preferring
  the first IPv4 result.

Both variants are embedded below (`parseServiceURL` for the strict one,
`parseServiceURLMain` for the `src/main.go` one, the latter parameterised by
a DNS oracle standing for `net.LookupIP`).  The URL layer models Go's
`net/url.Parse` / `URL.Hostname` / `URL.Port` on the fragment of the input
space the controller meets (percent-escapes are not modelled: a host
containing `%` is treated as malformed).  The IP layer models Go's
`net.ParseIP` (IPv4 dotted quad and IPv6 including `::` compression and an
embedded IPv4 tail) and `net.IP.String` (RFC 5952 output, 4-in-6 addresses
printed as dotted quads).

The Kubernetes client is modelled as an oracle giving the outcome of each
get/update/create call; reconciliation returns the list of API calls it
performed, so that "zero writes" and "exactly one write" are statable.
-/

/-! ## Characters and small numeric helpers -/

def isDigitChar (c : Char) : Bool := 48 ≤ c.toNat && c.toNat ≤ 57

def isAlphaChar (c : Char) : Bool :=
  (65 ≤ c.toNat && c.toNat ≤ 90) || (97 ≤ c.toNat && c.toNat ≤ 122)

def digitVal (c : Char) : Option Nat :=
  if isDigitChar c then some (c.toNat - 48) else none

def hexVal (c : Char) : Option Nat :=
  if isDigitChar c then some (c.toNat - 48)
  else if 97 ≤ c.toNat && c.toNat ≤ 102 then some (c.toNat - 87)
  else if 65 ≤ c.toNat && c.toNat ≤ 70 then some (c.toNat - 55)
  else none

def toLowerChar (c : Char) : Char :=
  if 65 ≤ c.toNat && c.toNat ≤ 90 then Char.ofNat (c.toNat + 32) else c

/-- Go's `int32(n)` truncation of a non-negative integer. -/
def toInt32 (n : Nat) : Int :=
  ((n : Int) + 2147483648) % 4294967296 - 2147483648

/-- Go's `strconv.Atoi` restricted to the digit strings it receives here
(`url.URL.Port` output and the literals `"443"`/`"80"`); overflow beyond
`math.MaxInt64` is an error, as in Go. -/
def atoiCore : List Char → Nat → Option Nat
  | [], acc => some acc
  | c :: rest, acc =>
    match digitVal c with
    | none => none
    | some d => atoiCore rest (acc * 10 + d)

def atoi (cs : List Char) : Option Nat :=
  if cs = [] then none
  else
    match atoiCore cs 0 with
    | none => none
    | some n => if n ≤ 9223372036854775807 then some n else none

/-! ## IP addresses: model of `net.ParseIP` and `net.IP.String` -/

/-- A parsed IP: a 4-byte IPv4 address or an IPv6 address as 8 16-bit
groups. -/
inductive IPAddr
  | v4 (a b c d : Nat)
  | v6 (groups : List Nat)
deriving DecidableEq, Repr

/-- Go's `ip.To4() != nil`: a 4-byte address, or a 16-byte address with the
4-in-6 prefix `::ffff:0:0`. -/
def isV4 : IPAddr → Bool
  | .v4 _ _ _ _ => true
  | .v6 gs => gs.take 5 = [0, 0, 0, 0, 0] && gs.get? 5 = some 65535

/-- Consume leading decimal digits: value, digit count, rest. -/
def takeDec : List Char → Nat × Nat × List Char
  | [] => (0, 0, [])
  | c :: cs =>
    match digitVal c with
    | none => (0, 0, c :: cs)
    | some d =>
      let r := takeDec cs
      (d * 10 ^ r.2.1 + r.1, r.2.1 + 1, r.2.2)

/-- Consume leading hexadecimal digits: value, digit count, rest. -/
def takeHex : List Char → Nat × Nat × List Char
  | [] => (0, 0, [])
  | c :: cs =>
    match hexVal c with
    | none => (0, 0, c :: cs)
    | some d =>
      let r := takeHex cs
      (d * 16 ^ r.2.1 + r.1, r.2.1 + 1, r.2.2)

/-- Go's IPv4 parser: exactly four dot-separated decimal octets, each
without leading zeros and at most 255. -/
def parseIPv4Fields : Nat → List Char → List Nat → Option (List Nat)
  | 0, _, _ => none
  | fuel + 1, s, acc =>
    let (v, n, rest) := takeDec s
    if n = 0 then none
    else if 1 < n && s.head? = some '0' then none
    else if 255 < v then none
    else
      let acc := acc ++ [v]
      if acc.length = 4 then (if rest = [] then some acc else none)
      else
        match rest with
        | '.' :: rest2 => parseIPv4Fields fuel rest2 acc
        | _ => none

def parseIPv4 (s : List Char) : Option IPAddr :=
  match parseIPv4Fields (s.length + 1) s [] with
  | some [a, b, c, d] => some (.v4 a b c d)
  | _ => none

def expandEllipsis (groups : List Nat) (k : Nat) : List Nat :=
  groups.take k ++ List.replicate (8 - groups.length) 0 ++ groups.drop k

def finishIPv6 (groups : List Nat) (ell : Option Nat) : Option (List Nat) :=
  if groups.length = 8 then
    match ell with
    | none => some groups
    | some _ => none
  else
    match ell with
    | none => none
    | some k => if groups.length < 8 then some (expandEllipsis groups k) else none

/-- Loop of Go's IPv6 parser (`netip.parseIPv6`): 16-bit hex groups
separated by `:`, at most one `::`, optionally ending in an embedded
IPv4 address worth two groups. -/
def parseIPv6Loop : Nat → List Char → List Nat → Option Nat → Option (List Nat)
  | 0, _, _, _ => none
  | fuel + 1, s, groups, ell =>
    let (v, n, rest) := takeHex s
    if n = 0 then none
    else if 65535 < v then none
    else
      match rest with
      | '.' :: _ =>
        if (ell.isSome && groups.length ≤ 6) || (ell.isNone && groups.length = 6) then
          match parseIPv4 s with
          | some (.v4 a b c d) => finishIPv6 (groups ++ [a * 256 + b, c * 256 + d]) ell
          | _ => none
        else none
      | _ =>
        let groups := groups ++ [v]
        if rest = [] then finishIPv6 groups ell
        else if groups.length = 8 then none
        else
          match rest with
          | ':' :: [] => none
          | ':' :: ':' :: rest2 =>
            if ell.isSome then none
            else if rest2 = [] then finishIPv6 groups (some groups.length)
            else parseIPv6Loop fuel rest2 groups (some groups.length)
          | ':' :: rest2 => parseIPv6Loop fuel rest2 groups ell
          | _ => none

def parseIPv6 (s : List Char) : Option IPAddr :=
  match s with
  | ':' :: ':' :: rest =>
    if rest = [] then some (.v6 (List.replicate 8 0))
    else (parseIPv6Loop (rest.length + 1) rest [] (some 0)).map .v6
  | _ => (parseIPv6Loop (s.length + 1) s [] none).map .v6

/-- Go's `net.ParseIP`: the first `.`, `:` or `%` decides the family (as in
`netip.ParseAddr`); a string with none of them is not an IP literal, and
zoned addresses are rejected. -/
def parseIP (s : List Char) : Option IPAddr :=
  go s
where
  go : List Char → Option IPAddr
    | [] => none
    | c :: rest =>
      if c = '.' then parseIPv4 s
      else if c = ':' then parseIPv6 s
      else if c.toNat = 37 then none  -- '%': zoned addresses are rejected
      else go rest

def natToDecAux : Nat → Nat → List Char
  | 0, _ => []
  | fuel + 1, n =>
    if n < 10 then [Char.ofNat (48 + n)]
    else natToDecAux fuel (n / 10) ++ [Char.ofNat (48 + n % 10)]

def natToDec (n : Nat) : List Char := natToDecAux (n + 1) n

def hexDigitChar (d : Nat) : Char :=
  if d < 10 then Char.ofNat (48 + d) else Char.ofNat (87 + d)

def natToHexAux : Nat → Nat → List Char
  | 0, _ => []
  | fuel + 1, n =>
    if n < 16 then [hexDigitChar n]
    else natToHexAux fuel (n / 16) ++ [hexDigitChar (n % 16)]

def natToHex (n : Nat) : List Char := natToHexAux (n + 1) n

/-- Length of the zero run starting at index `i`. -/
def zeroRunFrom (gs : List Nat) (i : Nat) : Nat :=
  ((gs.drop i).takeWhile (fun g => decide (g = 0))).length

/-- Leftmost-longest run of zero groups of length at least 2 (RFC 5952 /
Go's `IP.String`). -/
def bestZeroRun (gs : List Nat) : Option (Nat × Nat) :=
  (List.range gs.length).foldl
    (fun best i =>
      let l := zeroRunFrom gs i
      match best with
      | none => if 2 ≤ l then some (i, l) else none
      | some (_, bl) => if 2 ≤ l && bl < l then some (i, l) else best)
    none

def joinColon : List (List Char) → List Char
  | [] => []
  | [x] => x
  | x :: xs => x ++ ':' :: joinColon xs

def v4String (a b c d : Nat) : List Char :=
  natToDec a ++ '.' :: natToDec b ++ '.' :: natToDec c ++ '.' :: natToDec d

def v6String (gs : List Nat) : List Char :=
  match bestZeroRun gs with
  | none => joinColon (gs.map natToHex)
  | some (st, ln) =>
    joinColon ((gs.take st).map natToHex) ++ ':' :: ':' ::
      joinColon ((gs.drop (st + ln)).map natToHex)

/-- Go's `net.IP.String`: dotted quad for IPv4 (including 4-in-6),
RFC 5952 text for IPv6. -/
def ipToString : IPAddr → String
  | .v4 a b c d => String.mk (v4String a b c d)
  | .v6 gs =>
    if isV4 (.v6 gs) then
      match gs.get? 6, gs.get? 7 with
      | some g6, some g7 => String.mk (v4String (g6 / 256) (g6 % 256) (g7 / 256) (g7 % 256))
      | _, _ => String.mk (v6String gs)
    else String.mk (v6String gs)

/-! ## URLs: model of `net/url.Parse`, `URL.Hostname`, `URL.Port` -/

/-- The parts of Go's `url.URL` the controller reads: the (lowercased)
scheme and the authority host as stored (brackets and optional port
included; empty when the URL has no authority). -/
structure GoURL where
  scheme : List Char
  host : List Char
deriving DecidableEq, Repr

def isCTL (c : Char) : Bool := c.toNat < 32 || c.toNat = 127

/-- Characters `net/url` accepts verbatim inside a host
(`shouldEscape(c, encodeHost) = false`); `%` would start an escape
sequence, which is not modelled, so it is excluded. -/
def hostCharOK (c : Char) : Bool :=
  isAlphaChar c || isDigitChar c ||
  c = '-' || c = '.' || c = '_' || c = '~' || c = '!' || c = '$' || c = '&' ||
  c.toNat = 39 || c = '(' || c = ')' || c = '*' || c = '+' || c = ',' ||
  c = ';' || c = '=' || c = ':' || c = '[' || c = ']' || c = '<' || c = '>' ||
  c.toNat = 34

/-- Go's `getscheme`: `some (scheme, rest)` with `scheme = []` when the URL
has no scheme; `none` for a leading `:`. -/
def getScheme (cs : List Char) : Option (List Char × List Char) :=
  go cs []
where
  go : List Char → List Char → Option (List Char × List Char)
    | [], _ => some ([], cs)
    | c :: rest, acc =>
      if c = ':' then
        if acc = [] then none
        else some ((acc.reverse).map toLowerChar, rest)
      else if isAlphaChar c then go rest (c :: acc)
      else if isDigitChar c || c = '+' || c = '-' || c = '.' then
        if acc = [] then some ([], cs) else go rest (c :: acc)
      else some ([], cs)

/-- `before the first occurrence of stop` (Go's `strings.Cut`). -/
def cutBefore (stop : Char) (cs : List Char) : List Char :=
  cs.takeWhile (fun c => decide (c ≠ stop))

/-- Split at the last occurrence of `x`: `(before, after)`; `none` when `x`
does not occur (Go's `strings.LastIndex`). -/
def splitAtLastElem (x : Char) (cs : List Char) : Option (List Char × List Char) :=
  go (cs.reverse) []
where
  go : List Char → List Char → Option (List Char × List Char)
    | [], _ => none
    | c :: rest, acc =>
      if c = x then some (rest.reverse, acc) else go rest (c :: acc)

/-- Go's `validOptionalPort` applied to the text after the host proper:
empty, or `:` followed by decimal digits only. -/
def validOptPortAfter (cs : List Char) : Bool :=
  match cs with
  | [] => true
  | ':' :: ds => ds.all isDigitChar
  | _ => false

/-- Go's `parseHost` validation: a bracketed host needs a `]` with only a
valid optional port after it; otherwise everything after the last `:` (if
any) must be a valid port; all characters must be acceptable host
characters. -/
def hostValid (host : List Char) : Bool :=
  (match host with
   | '[' :: _ =>
     match splitAtLastElem ']' host with
     | none => false
     | some (_, after) => validOptPortAfter after
   | _ =>
     match splitAtLastElem ':' host with
     | none => true
     | some (_, after) => after.all isDigitChar) &&
  host.all hostCharOK

/-- Go's `url.Parse` restricted to the parts the controller reads.  The
fragment is cut at `#`, the scheme extracted, the query cut at `?`; an
authority (`//…`) yields the host (userinfo up to the last `@` dropped,
host validated); otherwise the URL is opaque or a path and the host is
empty.  A URL with no scheme whose first path segment contains `:` is a
parse error, as are control characters and invalid host syntax. -/
def urlParse (s : String) : Option GoURL :=
  let cs := s.toList
  if cs.any isCTL then none
  else
    let beforeFrag := cutBefore '#' cs
    match getScheme beforeFrag with
    | none => none
    | some (scheme, rest0) =>
      let rest := cutBefore '?' rest0
      if scheme = [] && rest.head? ≠ some '/' &&
         (cutBefore '/' rest).contains ':' then none
      else if (rest.take 2 = ['/', '/']) &&
              (scheme ≠ [] || rest.take 3 ≠ ['/', '/', '/']) then
        let authority := cutBefore '/' (rest.drop 2)
        let host :=
          match splitAtLastElem '@' authority with
          | some (_, h) => h
          | none => authority
        if hostValid host then some ⟨scheme, host⟩ else none
      else some ⟨scheme, []⟩

/-- Go's `splitHostPort` (used by `URL.Hostname` and `URL.Port`): strip a
valid numeric port after the last `:`, then strip one pair of square
brackets. -/
def splitHostPort (hp : List Char) : List Char × List Char :=
  let rev := hp.reverse
  let ds := rev.takeWhile isDigitChar
  let rest := rev.drop ds.length
  let (host, port) :=
    match rest with
    | ':' :: hrev => (hrev.reverse, ds.reverse)
    | _ => (hp, ([] : List Char))
  let host :=
    match host with
    | '[' :: t =>
      match t.reverse with
      | ']' :: m => m.reverse
      | _ => host
    | _ => host
  (host, port)

def urlHostname (u : GoURL) : List Char := (splitHostPort u.host).1

def urlPortStr (u : GoURL) : List Char := (splitHostPort u.host).2

/-! ## Address resolution: the two `parseServiceURL` variants -/

/-- Classified resolution errors, one constructor per `return nil, fmt.Errorf`
site of the two `parseServiceURL` variants. -/
inductive ParseError
  | malformedURL
  | unknownSchemeNoPort (scheme : List Char)
  | invalidPort
  | portOutOfRange (p : Nat)
  | hostnameNotSupported (host : List Char)
  | dnsFailed (host : List Char)
  | noIPsFound (host : List Char)
deriving DecidableEq, Repr

/-- The normalized endpoint both variants return: `ip.String()` and the
port as Go `int32`. -/
structure EndpointAddress where
  ip : String
  port : Int
deriving DecidableEq, Repr

/-- The port-string defaulting step shared verbatim by both variants:
an explicit port is kept; otherwise `https` → `"443"`, `http` → `"80"`,
any other scheme is an error. -/
def defaultPort (u : GoURL) : Except ParseError (List Char) :=
  if urlPortStr u ≠ [] then .ok (urlPortStr u)
  else if u.scheme = String.toList "https" then .ok (String.toList "443")
  else if u.scheme = String.toList "http" then .ok (String.toList "80")
  else .error (.unknownSchemeNoPort u.scheme)

/-- Port-string defaulting followed by `strconv.Atoi`, shared verbatim by
both variants. -/
def resolvePort (u : GoURL) : Except ParseError Nat :=
  match defaultPort u with
  | .error e => .error e
  | .ok ps =>
    match atoi ps with
    | none => .error .invalidPort
    | some p => .ok p

/-- The body of the strict variant after `url.Parse` succeeded
(`src/unnamed/part_001` lines 327–357): default the port by scheme,
`Atoi`, reject ports outside `[1,65535]`, and require the host to be a
literal IP (`net.ParseIP`). -/
def resolveStrict (u : GoURL) : Except ParseError EndpointAddress :=
  match resolvePort u with
  | .error e => .error e
  | .ok p =>
    if p < 1 ∨ 65535 < p then .error (.portOutOfRange p)
    else
      match parseIP (urlHostname u) with
      | none => .error (.hostnameNotSupported (urlHostname u))
      | some ip => .ok ⟨ipToString ip, toInt32 p⟩

/-- `parseServiceURL` of the strict variant (`src/unnamed/part_001` lines
321–358, identical in `src/README.md`). -/
def parseServiceURL (rawURL : String) : Except ParseError EndpointAddress :=
  match urlParse rawURL with
  | none => .error .malformedURL
  | some u => resolveStrict u

/-- The environment's answer to `net.LookupIP`: a transport error or the
list of resolved addresses. -/
def DnsOracle : Type := List Char → Except Unit (List IPAddr)

/-- The body of the `src/main.go` variant after `url.Parse` succeeded
(lines 210–252): no port range check, and a non-literal host is resolved
via `net.LookupIP`, preferring the first result with `To4() != nil`, else
the first result. -/
def resolveMain (dns : DnsOracle) (u : GoURL) : Except ParseError EndpointAddress :=
  match resolvePort u with
  | .error e => .error e
  | .ok p =>
    match parseIP (urlHostname u) with
    | some ip => .ok ⟨ipToString ip, toInt32 p⟩
    | none =>
      match dns (urlHostname u) with
      | .error _ => .error (.dnsFailed (urlHostname u))
      | .ok [] => .error (.noIPsFound (urlHostname u))
      | .ok (ip0 :: rest) =>
        match (ip0 :: rest).find? isV4 with
        | some ip4 => .ok ⟨ipToString ip4, toInt32 p⟩
        | none => .ok ⟨ipToString ip0, toInt32 p⟩

/-- `parseServiceURL` of the `src/main.go` variant (lines 204–253). -/
def parseServiceURLMain (dns : DnsOracle) (rawURL : String) :
    Except ParseError EndpointAddress :=
  match urlParse rawURL with
  | none => .error .malformedURL
  | some u => resolveMain dns u

/-! ## EndpointSlices and the reconciler -/

inductive Protocol
  | tcp
  | udp
  | sctp
deriving DecidableEq, Repr

inductive AddressType
  | ipv4
  | ipv6
  | fqdn
deriving DecidableEq, Repr

structure EndpointPort where
  name : Option String
  port : Option Int
  protocol : Option Protocol
deriving DecidableEq, Repr

structure Endpoint where
  addresses : List String
deriving DecidableEq, Repr

structure EndpointSlice where
  name : String
  namespc : String
  labels : List (String × String)
  addressType : AddressType
  endpoints : List Endpoint
  ports : List EndpointPort
deriving DecidableEq, Repr

/-- Go map indexing `labels["…"]` with the zero-value default. -/
def lookupLabel (labels : List (String × String)) (key : String) : String :=
  match labels.find? (fun kv => kv.1 == key) with
  | some kv => kv.2
  | none => ""

/-- `endpointSliceMatches` (`src/main.go` lines 334–361, identical logic in
`src/unnamed/part_001` lines 427–454): the guard-clause comparison the
reconciler uses to decide idempotent no-ops. -/
def endpointSliceMatches (slice : EndpointSlice) (serviceName portName : String)
    (addr : EndpointAddress) : Bool :=
  if lookupLabel slice.labels "kubernetes.io/service-name" ≠ serviceName then false
  else if slice.addressType ≠ AddressType.ipv4 then false
  else
    match slice.endpoints with
    | [ep] =>
      match ep.addresses with
      | [a] =>
        if a ≠ addr.ip then false
        else
          match slice.ports with
          | [p] =>
            match p.name with
            | none => false
            | some n =>
              if n ≠ portName then false
              else
                match p.port with
                | none => false
                | some po =>
                  if po ≠ addr.port then false
                  else
                    match p.protocol with
                    | none => false
                    | some pr => decide (pr = Protocol.tcp)
          | _ => false
      | _ => false
    | _ => false

/-- The full desired object `updateEndpointSlice` constructs (labels,
`AddressTypeIPv4`, one address, one TCP port). -/
def desiredSlice (namespc serviceName sliceName portName : String)
    (addr : EndpointAddress) : EndpointSlice :=
  { name := sliceName
    namespc := namespc
    labels := [("kubernetes.io/service-name", serviceName)]
    addressType := .ipv4
    endpoints := [⟨[addr.ip]⟩]
    ports := [⟨some portName, some addr.port, some .tcp⟩] }

/-- Outcome of the `Get` call against the API server. -/
inductive GetOutcome
  | found (s : EndpointSlice)
  | notFound
  | err
deriving Repr

/-- Outcome of an `Update`/`Create` call against the API server. -/
inductive WriteOutcome
  | ok
  | notFound
  | err
deriving DecidableEq, Repr

/-- The Kubernetes EndpointSlice client, as an oracle for the outcome of
each call the reconciler can make. -/
structure SliceApi where
  get : String → GetOutcome
  update : EndpointSlice → WriteOutcome
  create : EndpointSlice → WriteOutcome

/-- One API call as performed by the reconciler, recorded in order. -/
inductive ApiCall
  | get (name : String)
  | update (s : EndpointSlice)
  | create (s : EndpointSlice)
deriving DecidableEq, Repr

inductive SliceError
  | getFailed
  | updateFailed
  | createFailed
deriving DecidableEq, Repr

/-- The write path of `updateEndpointSlice` (`src/main.go` lines 293–331):
build the full desired object, attempt `Update`, and on a not-found error
fall back to `Create`. -/
def applySlice (api : SliceApi) (namespc serviceName sliceName portName : String)
    (addr : EndpointAddress) : Except SliceError Unit × List ApiCall :=
  let slice := desiredSlice namespc serviceName sliceName portName addr
  match api.update slice with
  | .ok => (.ok (), [.get sliceName, .update slice])
  | .err => (.error .updateFailed, [.get sliceName, .update slice])
  | .notFound =>
    match api.create slice with
    | .ok => (.ok (), [.get sliceName, .update slice, .create slice])
    | _ => (.error .createFailed, [.get sliceName, .update slice, .create slice])

/-- `updateEndpointSlice` (`src/main.go` lines 279–332): `Get` the existing
object (a non-not-found error is fatal for this intent), return with no
write when it already matches, otherwise overwrite via `applySlice`. -/
def updateEndpointSlice (api : SliceApi) (namespc serviceName sliceName portName : String)
    (addr : EndpointAddress) : Except SliceError Unit × List ApiCall :=
  match api.get sliceName with
  | .err => (.error .getFailed, [.get sliceName])
  | .found existing =>
    if endpointSliceMatches existing serviceName portName addr then
      (.ok (), [.get sliceName])
    else applySlice api namespc serviceName sliceName portName addr
  | .notFound => applySlice api namespc serviceName sliceName portName addr

/-! ## One reconciliation cycle: `run` -/

/-- The decoded `ceph mgr services` response: URL per known service, empty
string when the service is absent. -/
structure MgrServices where
  dashboard : String
  prometheus : String
deriving DecidableEq, Repr

/-- One error per `return fmt.Errorf` site of `run`. -/
inductive RunError
  | getServicesFailed
  | serviceURLNotFound (service : String)
  | parseURLFailed (service : String) (e : ParseError)
  | updateSliceFailed (service : String) (e : SliceError)
deriving DecidableEq, Repr

/-- The configuration `run` reads: namespace, parent service name, and the
two target slice names (empty = do not publish). -/
structure RunCfg where
  namespc : String
  serviceName : String
  dashboardSlice : String
  prometheusSlice : String
deriving DecidableEq, Repr

/-- `run` (`src/unnamed/part_001` lines 236–280, same structure in
`src/main.go` lines 126–170): query the manager services, then reconcile
the dashboard and then the prometheus slice, returning at the first
failure.  The query outcome is an input; the trace collects the API calls
of both reconciliations in order. -/
def run (cfg : RunCfg) (api : SliceApi) (services : Except Unit MgrServices) :
    Except RunError Unit × List ApiCall :=
  match services with
  | .error _ => (.error .getServicesFailed, [])
  | .ok svc =>
    if cfg.dashboardSlice = "" ∧ cfg.prometheusSlice = "" then (.ok (), [])
    else
      let step1 : Except RunError Unit × List ApiCall :=
        if cfg.dashboardSlice = "" then (.ok (), [])
        else if svc.dashboard = "" then (.error (.serviceURLNotFound "dashboard"), [])
        else
          match parseServiceURL svc.dashboard with
          | .error e => (.error (.parseURLFailed "dashboard" e), [])
          | .ok addr =>
            match updateEndpointSlice api cfg.namespc cfg.serviceName
                cfg.dashboardSlice "dashboard" addr with
            | (.error e, tr) => (.error (.updateSliceFailed "dashboard" e), tr)
            | (.ok _, tr) => (.ok (), tr)
      match step1 with
      | (.error e, tr) => (.error e, tr)
      | (.ok _, tr1) =>
        if cfg.prometheusSlice = "" then (.ok (), tr1)
        else if svc.prometheus = "" then (.error (.serviceURLNotFound "prometheus"), tr1)
        else
          match parseServiceURL svc.prometheus with
          | .error e => (.error (.parseURLFailed "prometheus" e), tr1)
          | .ok addr =>
            match updateEndpointSlice api cfg.namespc cfg.serviceName
                cfg.prometheusSlice "prometheus" addr with
            | (.error e, tr2) => (.error (.updateSliceFailed "prometheus" e), tr1 ++ tr2)
            | (.ok _, tr2) => (.ok (), tr1 ++ tr2)

/-! ## The scheduler loop of `main` -/

/-- What the select loop can observe: a cancellation signal, or a timer
tick whose cycle has the given outcome. -/
inductive LoopEvent
  | cancel
  | tick (outcome : Except RunError Unit)

/-- The periodic select loop (`src/main.go` lines 114–123): cancellation
returns cleanly, a tick runs one more cycle whose outcome is only logged.
Result: optional exit status (none = still looping when the events ran
out) and the number of cycles run so far. -/
def mainLoopAux : List LoopEvent → Nat → Option Nat × Nat
  | [], n => (none, n)
  | .cancel :: _, n => (some 0, n)
  | .tick _ :: rest, n => mainLoopAux rest (n + 1)

/-- The scheduling tail of `main` (`src/main.go` lines 100–124): one cycle
has already run with outcome `first`; with `interval = 0` the process
exits immediately (status 1 iff the cycle failed), otherwise it enters the
ticker loop. -/
def mainLoop (first : Except RunError Unit) (interval : Nat)
    (events : List LoopEvent) : Option Nat × Nat :=
  match first, interval with
  | .error _, 0 => (some 1, 1)
  | .ok _, 0 => (some 0, 1)
  | _, _ => mainLoopAux events 1

/-! ## Shared lemmas -/

deriving instance DecidableEq for Except

theorem toInt32_of_le {n : Nat} (h : n ≤ 65535) : toInt32 n = (n : Int) := by
  simp only [toInt32]
  omega

theorem mainLoopAux_ticks (outcomes : List (Except RunError Unit))
    (evts : List LoopEvent) (n : Nat) :
    mainLoopAux (outcomes.map LoopEvent.tick ++ evts) n =
      mainLoopAux evts (n + outcomes.length) := by
  induction outcomes generalizing n with
  | nil => simp
  | cons o os ih =>
    simp only [List.map_cons, List.cons_append, mainLoopAux, List.append_eq,
      List.length_cons]
    rw [ih]
    have h2 : n + 1 + os.length = n + (os.length + 1) := by omega
    rw [h2]

theorem applySlice_calls (api : SliceApi) (ns sn sl pn : String)
    (addr : EndpointAddress) :
    ∀ c ∈ (applySlice api ns sn sl pn addr).2,
      c = ApiCall.get sl ∨ c = ApiCall.update (desiredSlice ns sn sl pn addr) ∨
        c = ApiCall.create (desiredSlice ns sn sl pn addr) := by
  intro c hc
  simp only [applySlice] at hc
  cases hu : api.update (desiredSlice ns sn sl pn addr) <;> rw [hu] at hc
  · simp at hc; tauto
  · cases hcr : api.create (desiredSlice ns sn sl pn addr) <;> rw [hcr] at hc <;>
      simp at hc <;> tauto
  · simp at hc; tauto

theorem updateEndpointSlice_calls (api : SliceApi) (ns sn sl pn : String)
    (addr : EndpointAddress) :
    ∀ c ∈ (updateEndpointSlice api ns sn sl pn addr).2,
      c = ApiCall.get sl ∨ c = ApiCall.update (desiredSlice ns sn sl pn addr) ∨
        c = ApiCall.create (desiredSlice ns sn sl pn addr) := by
  intro c hc
  cases hg : api.get sl
  case found s =>
    by_cases hm : endpointSliceMatches s sn pn addr = true
    · simp [updateEndpointSlice, hg, hm] at hc
      tauto
    · simp only [updateEndpointSlice, hg] at hc
      rw [if_neg hm] at hc
      exact applySlice_calls api ns sn sl pn addr c hc
  case notFound =>
    simp only [updateEndpointSlice, hg] at hc
    exact applySlice_calls api ns sn sl pn addr c hc
  case err =>
    simp [updateEndpointSlice, hg] at hc
    tauto

/-! ## C8, C9, C10, C7 -/

/-- C8: when the existing PublishedState deviates, reconciliation performs
exactly one write of the complete desired object (a full overwrite built
only from the intent, independent of the existing object), attempted as an
update-in-place with a fallback to create; when no PublishedState exists,
it performs exactly one create (after the update attempt fails not-found). -/
theorem c8_full_overwrite (api : SliceApi) (ns sn sl pn : String) (addr : EndpointAddress) :
    (∀ s, api.get sl = .found s → endpointSliceMatches s sn pn addr = false →
       api.update (desiredSlice ns sn sl pn addr) = .ok →
       updateEndpointSlice api ns sn sl pn addr =
         (.ok (), [.get sl, .update (desiredSlice ns sn sl pn addr)])) ∧
    (∀ s, api.get sl = .found s → endpointSliceMatches s sn pn addr = false →
       api.update (desiredSlice ns sn sl pn addr) = .notFound →
       api.create (desiredSlice ns sn sl pn addr) = .ok →
       updateEndpointSlice api ns sn sl pn addr =
         (.ok (), [.get sl, .update (desiredSlice ns sn sl pn addr),
           .create (desiredSlice ns sn sl pn addr)])) ∧
    (api.get sl = .notFound →
       api.update (desiredSlice ns sn sl pn addr) = .notFound →
       api.create (desiredSlice ns sn sl pn addr) = .ok →
       updateEndpointSlice api ns sn sl pn addr =
         (.ok (), [.get sl, .update (desiredSlice ns sn sl pn addr),
           .create (desiredSlice ns sn sl pn addr)])) := by
  refine ⟨?_, ?_, ?_⟩
  · intro s hg hm hu
    simp [updateEndpointSlice, applySlice, hg, hm, hu]
  · intro s hg hm hu hcr
    simp [updateEndpointSlice, applySlice, hg, hm, hu, hcr]
  · intro hg hu hcr
    simp [updateEndpointSlice, applySlice, hg, hu, hcr]

/-- C8 witness: with no existing object and a not-found update outcome, the
reconciler performs exactly one create of the full desired object. -/
theorem c8_full_overwrite_witness :
    updateEndpointSlice
      ⟨fun _ => .notFound, fun _ => .notFound, fun _ => .ok⟩
      "ceph" "ceph-mgr" "dash" "dashboard" ⟨"10.0.0.5", 8443⟩ =
      (.ok (), [.get "dash",
        .update (desiredSlice "ceph" "ceph-mgr" "dash" "dashboard" ⟨"10.0.0.5", 8443⟩),
        .create (desiredSlice "ceph" "ceph-mgr" "dash" "dashboard" ⟨"10.0.0.5", 8443⟩)]) :=
  (c8_full_overwrite ⟨fun _ => .notFound, fun _ => .notFound, fun _ => .ok⟩
    "ceph" "ceph-mgr" "dash" "dashboard" ⟨"10.0.0.5", 8443⟩).2.2 rfl rfl rfl

/-- C9: with interval 0 the process runs exactly one cycle and exits with
status 1 on failure and 0 on success; with a non-zero interval a failed
first cycle does not exit, ticks re-run the cycle regardless of each
outcome, and a cancellation ends the loop cleanly with status 0. -/
theorem c9_single_shot_and_periodic (e : RunError) (interval : Nat)
    (events rest : List LoopEvent) (outcomes : List (Except RunError Unit))
    (hi : interval ≠ 0) :
    mainLoop (.ok ()) 0 events = (some 0, 1) ∧
    mainLoop (.error e) 0 events = (some 1, 1) ∧
    mainLoop (.error e) interval (outcomes.map .tick) = (none, 1 + outcomes.length) ∧
    mainLoop (.error e) interval (outcomes.map .tick ++ .cancel :: rest) =
      (some 0, 1 + outcomes.length) := by
  cases interval with
  | zero => exact absurd rfl hi
  | succ k =>
    refine ⟨rfl, rfl, ?_, ?_⟩
    · show mainLoopAux _ 1 = _
      have h := mainLoopAux_ticks outcomes [] 1
      simp only [List.append_nil] at h
      rw [h]
      rfl
    · show mainLoopAux _ 1 = _
      rw [mainLoopAux_ticks]
      rfl

/-- C9 witness: two failing ticks after a failing first cycle keep the loop
alive in periodic mode, and a subsequent cancellation exits cleanly; in
single-shot mode the same failing cycle exits with status 1. -/
theorem c9_single_shot_and_periodic_witness :
    mainLoop (.ok ()) 0 [] = (some 0, 1) ∧
    mainLoop (.error .getServicesFailed) 0 [] = (some 1, 1) ∧
    mainLoop (.error .getServicesFailed) 1
      [.tick (.error .getServicesFailed), .tick (.error .getServicesFailed)] = (none, 3) ∧
    mainLoop (.error .getServicesFailed) 1
      [.tick (.error .getServicesFailed), .tick (.error .getServicesFailed), .cancel] =
      (some 0, 3) :=
  c9_single_shot_and_periodic .getServicesFailed 1 []
    [] [.error .getServicesFailed, .error .getServicesFailed] (by decide)

/-- C10: every object the reconciler writes (via update or create) carries
address type IPv4 regardless of the address family of the resolved
endpoint; the match check returns false whenever the existing object's
address type is not IPv4; and the object the reconciler writes compares as
matching on the next cycle. -/
theorem c10_published_type_always_ipv4 (api : SliceApi) (ns sn sl pn : String)
    (addr : EndpointAddress) :
    (∀ s', ApiCall.update s' ∈ (updateEndpointSlice api ns sn sl pn addr).2 →
       s'.addressType = AddressType.ipv4) ∧
    (∀ s', ApiCall.create s' ∈ (updateEndpointSlice api ns sn sl pn addr).2 →
       s'.addressType = AddressType.ipv4) ∧
    (∀ s, s.addressType ≠ AddressType.ipv4 →
       endpointSliceMatches s sn pn addr = false) ∧
    endpointSliceMatches (desiredSlice ns sn sl pn addr) sn pn addr = true := by
  refine ⟨?_, ?_, ?_, ?_⟩
  · intro s' h
    rcases updateEndpointSlice_calls api ns sn sl pn addr _ h with h | h | h
    · simp at h
    · injection h with h'
      subst h'
      rfl
    · simp at h
  · intro s' h
    rcases updateEndpointSlice_calls api ns sn sl pn addr _ h with h | h | h
    · simp at h
    · simp at h
    · injection h with h'
      subst h'
      rfl
  · intro s hs
    simp [endpointSliceMatches, hs]
  · simp [endpointSliceMatches, desiredSlice, lookupLabel]

/-- C10 witness: with an IPv6 endpoint the written object still has address
type IPv4, an IPv6-typed existing object never matches, and the freshly
written object matches on the next cycle. -/
theorem c10_published_type_always_ipv4_witness :
    endpointSliceMatches
      ⟨"dash", "ceph", [("kubernetes.io/service-name", "ceph-mgr")], .ipv6,
        [⟨["2001:db8::1"]⟩], [⟨some "dashboard", some 8443, some .tcp⟩]⟩
      "ceph-mgr" "dashboard" ⟨"2001:db8::1", 8443⟩ = false ∧
    endpointSliceMatches
      (desiredSlice "ceph" "ceph-mgr" "dash" "dashboard" ⟨"2001:db8::1", 8443⟩)
      "ceph-mgr" "dashboard" ⟨"2001:db8::1", 8443⟩ = true :=
  ⟨(c10_published_type_always_ipv4
      ⟨fun _ => .notFound, fun _ => .ok, fun _ => .ok⟩
      "ceph" "ceph-mgr" "dash" "dashboard" ⟨"2001:db8::1", 8443⟩).2.2.1 _ (by decide),
   (c10_published_type_always_ipv4
      ⟨fun _ => .notFound, fun _ => .ok, fun _ => .ok⟩
      "ceph" "ceph-mgr" "dash" "dashboard" ⟨"2001:db8::1", 8443⟩).2.2.2⟩

/-- C7 (amended): an existing PublishedState matching the intent with
address type IPv4 — the reconciler's fixed address type, not the intent's
family — yields success with zero writes. -/
theorem c7_no_write_when_matching (api : SliceApi) (ns sn sl pn : String)
    (addr : EndpointAddress) (s : EndpointSlice)
    (hget : api.get sl = .found s)
    (hlabel : lookupLabel s.labels "kubernetes.io/service-name" = sn)
    (htype : s.addressType = AddressType.ipv4)
    (heps : s.endpoints = [⟨[addr.ip]⟩])
    (hports : s.ports = [⟨some pn, some addr.port, some Protocol.tcp⟩]) :
    updateEndpointSlice api ns sn sl pn addr = (.ok (), [.get sl]) := by
  have hm : endpointSliceMatches s sn pn addr = true := by
    simp [endpointSliceMatches, hlabel, htype, heps, hports]
  simp [updateEndpointSlice, hget, hm]

/-- C7 witness: a PublishedState equal to the desired dashboard object is
left untouched (a single read, no write). -/
theorem c7_no_write_when_matching_witness :
    updateEndpointSlice
      ⟨fun _ => .found ⟨"dash", "ceph", [("kubernetes.io/service-name", "ceph-mgr")],
          .ipv4, [⟨["10.0.0.5"]⟩], [⟨some "dashboard", some 8443, some .tcp⟩]⟩,
        fun _ => .ok, fun _ => .ok⟩
      "ceph" "ceph-mgr" "dash" "dashboard" ⟨"10.0.0.5", 8443⟩ =
      (.ok (), [.get "dash"]) :=
  c7_no_write_when_matching _ "ceph" "ceph-mgr" "dash" "dashboard" ⟨"10.0.0.5", 8443⟩
    ⟨"dash", "ceph", [("kubernetes.io/service-name", "ceph-mgr")],
      .ipv4, [⟨["10.0.0.5"]⟩], [⟨some "dashboard", some 8443, some .tcp⟩]⟩
    rfl (by decide) rfl rfl rfl

/-- C7 counterexample: an IPv6 intent whose existing PublishedState carries
the intent's family (address type IPv6) and matches in every other field is
rewritten: the cycle performs a write, not zero writes. -/
theorem c7_counterexample :
    parseServiceURL "https://[2001:db8::1]:8443" = .ok ⟨"2001:db8::1", 8443⟩ ∧
    updateEndpointSlice
      ⟨fun _ => .found ⟨"dash", "ceph", [("kubernetes.io/service-name", "ceph-mgr")],
          .ipv6, [⟨["2001:db8::1"]⟩], [⟨some "dashboard", some 8443, some .tcp⟩]⟩,
        fun _ => .ok, fun _ => .ok⟩
      "ceph" "ceph-mgr" "dash" "dashboard" ⟨"2001:db8::1", 8443⟩ =
      (.ok (), [.get "dash",
        .update (desiredSlice "ceph" "ceph-mgr" "dash" "dashboard" ⟨"2001:db8::1", 8443⟩)]) := by
  constructor
  · decide
  · decide

/-! ## Resolver lemmas shared by the address-resolution claims -/

theorem resolveStrict_ok_port (u : GoURL) (p : Nat) (a : EndpointAddress)
    (hp : resolvePort u = .ok p) (h : resolveStrict u = .ok a) :
    a.port = (p : Int) ∧ 1 ≤ p ∧ p ≤ 65535 := by
  unfold resolveStrict at h
  simp only [hp] at h
  split at h
  · simp at h
  · rename_i hrange
    split at h
    · simp at h
    · injection h with h'
      subst h'
      push_neg at hrange
      exact ⟨toInt32_of_le hrange.2, hrange⟩

theorem resolveMain_ok_port (dns : DnsOracle) (u : GoURL) (p : Nat)
    (a : EndpointAddress) (hp : resolvePort u = .ok p)
    (h : resolveMain dns u = .ok a) : a.port = toInt32 p := by
  unfold resolveMain at h
  simp only [hp] at h
  split at h
  · injection h with h'
    subst h'
    rfl
  · split at h
    · simp at h
    · simp at h
    · split at h
      · injection h with h'
        subst h'
        rfl
      · injection h with h'
        subst h'
        rfl

/-! ## C4 -/

/-- C4 (amended): in the strict variant (`part_001`/`README.md`) a
successful resolution always yields a port in `[1,65535]` and a numeric
port outside that range fails with the port-range error; the `src/main.go`
variant performs no range validation (see the counterexample). -/
theorem c4_strict_port_range :
    (∀ s a, parseServiceURL s = .ok a → 1 ≤ a.port ∧ a.port ≤ 65535) ∧
    (∀ s u p, urlParse s = some u → resolvePort u = .ok p →
       (p < 1 ∨ 65535 < p) →
       parseServiceURL s = .error (.portOutOfRange p)) := by
  constructor
  · intro s a h
    unfold parseServiceURL at h
    split at h
    · simp at h
    · rename_i u hu
      cases hp : resolvePort u
      case error e =>
        unfold resolveStrict at h
        simp only [hp] at h
        exact Except.noConfusion h
      case ok p =>
        obtain ⟨hport, h1, h2⟩ := resolveStrict_ok_port u p a hp h
        rw [hport]
        omega
  · intro s u p hu hp hrange
    simp only [parseServiceURL, hu]
    simp only [resolveStrict, hp]
    rw [if_pos hrange]

/-- C4 witness: port 99999 is rejected by the strict resolver, and a
successful strict resolution carries an in-range port. -/
theorem c4_strict_port_range_witness :
    parseServiceURL "http://10.0.0.5:99999" = .error (.portOutOfRange 99999) ∧
    (1 ≤ (8443 : Int) ∧ (8443 : Int) ≤ 65535) :=
  ⟨c4_strict_port_range.2 "http://10.0.0.5:99999"
      ⟨String.toList "http", String.toList "10.0.0.5:99999"⟩ 99999
      (by decide) (by decide) (by decide),
   c4_strict_port_range.1 "https://10.0.0.5:8443" ⟨"10.0.0.5", 8443⟩ (by decide)⟩

/-- C4 counterexample: the `src/main.go` resolver accepts the numeric port
99999 (outside `[1,65535]`) and returns it instead of failing. -/
theorem c4_counterexample :
    parseServiceURLMain (fun _ => .error ()) "http://10.0.0.5:99999" =
      .ok ⟨"10.0.0.5", 99999⟩ ∧ ¬ ((99999 : Int) ≤ 65535) := by
  constructor
  · decide
  · decide

/-! ## C3 -/

/-- C3 (amended): for a URL whose port determination succeeds (in range)
but whose host is not a literal IP, the strict variant fails with the
hostname error and consults nothing else, while the `src/main.go` variant
silently resolves the host through the DNS oracle and returns whatever
address the oracle supplies. -/
theorem c3_hostname_handling (s : String) (u : GoURL) (p : Nat)
    (hu : urlParse s = some u) (hp : resolvePort u = .ok p)
    (h1 : 1 ≤ p) (h2 : p ≤ 65535)
    (hip : parseIP (urlHostname u) = none) :
    parseServiceURL s = .error (.hostnameNotSupported (urlHostname u)) ∧
    ∀ (dns : DnsOracle) (ip : IPAddr), dns (urlHostname u) = .ok [ip] →
      parseServiceURLMain dns s = .ok ⟨ipToString ip, toInt32 p⟩ := by
  constructor
  · simp only [parseServiceURL, hu]
    simp only [resolveStrict, hp]
    rw [if_neg (by omega), hip]
  · intro dns ip hdns
    simp only [parseServiceURLMain, hu]
    simp only [resolveMain, hp, hip, hdns]
    cases hv : isV4 ip <;> simp [List.find?, hv]

/-- C3 witness: `http://ceph-mgr:80` is rejected by the strict resolver as
a hostname, and the `src/main.go` resolver instead returns the
oracle-supplied address. -/
theorem c3_hostname_handling_witness :
    parseServiceURL "http://ceph-mgr:80" =
      .error (.hostnameNotSupported (String.toList "ceph-mgr")) ∧
    parseServiceURLMain (fun _ => .ok [IPAddr.v4 10 0 0 2]) "http://ceph-mgr:80" =
      .ok ⟨"10.0.0.2", 80⟩ := by
  have h := c3_hostname_handling "http://ceph-mgr:80"
    ⟨String.toList "http", String.toList "ceph-mgr:80"⟩ 80
    (by decide) (by decide) (by decide) (by decide) (by decide)
  exact ⟨h.1, h.2 (fun _ => .ok [IPAddr.v4 10 0 0 2]) (IPAddr.v4 10 0 0 2) rfl⟩

/-- C3 counterexample: on a hostname URL the `src/main.go` resolver does
not fail with a hostname error — it silently resolves via DNS. -/
theorem c3_counterexample :
    parseServiceURLMain (fun _ => .ok [IPAddr.v4 10 0 0 1]) "http://ceph-mgr:80" =
      .ok ⟨"10.0.0.1", 80⟩ := by decide

/-! ## C5 -/

/-- C5 (amended): the strict resolver is a pure function (two invocations
on the same string are definitionally equal); the `src/main.go` resolver
is independent of the DNS oracle whenever the URL fails to parse or its
host is a literal IP, but on hostname hosts its result is whatever the
oracle answers (see the counterexample). -/
theorem c5_determinism_and_dns (s : String) :
    parseServiceURL s = parseServiceURL s ∧
    (∀ d₁ d₂ : DnsOracle, urlParse s = none →
       parseServiceURLMain d₁ s = parseServiceURLMain d₂ s) ∧
    (∀ (u : GoURL) (ip : IPAddr) (d₁ d₂ : DnsOracle), urlParse s = some u →
       parseIP (urlHostname u) = some ip →
       parseServiceURLMain d₁ s = parseServiceURLMain d₂ s) := by
  refine ⟨rfl, ?_, ?_⟩
  · intro d₁ d₂ hu
    simp [parseServiceURLMain, hu]
  · intro u ip d₁ d₂ hu hip
    simp only [parseServiceURLMain, hu]
    unfold resolveMain
    cases hp : resolvePort u <;> simp only [hp, hip]

/-- C5 witness: with a literal-IP URL the `src/main.go` resolver returns
the same result under two different DNS oracles. -/
theorem c5_determinism_and_dns_witness :
    parseServiceURLMain (fun _ => .ok []) "https://10.0.0.5:8443" =
      parseServiceURLMain (fun _ => .error ()) "https://10.0.0.5:8443" :=
  (c5_determinism_and_dns "https://10.0.0.5:8443").2.2
    ⟨String.toList "https", String.toList "10.0.0.5:8443"⟩ (IPAddr.v4 10 0 0 5)
    _ _ (by decide) (by decide)

/-- C5 counterexample: the `src/main.go` resolver performs DNS I/O — on the
same input string two invocations differ when the DNS answer differs, so
resolution is not side-effect free. -/
theorem c5_counterexample :
    parseServiceURLMain (fun _ => .ok [IPAddr.v4 10 0 0 1]) "http://ceph-mgr:80" ≠
      parseServiceURLMain (fun _ => .ok [IPAddr.v4 10 0 0 2]) "http://ceph-mgr:80" := by
  decide

/-! ## C6 -/

/-- C6 (amended): for a well-formed URL, the strict resolver yields exactly
the explicit port on success, defaults to 443 for `https` and 80 for
`http` when no port is given, and fails with the unknown-scheme error for
any other scheme without a port; the `src/main.go` resolver yields the
explicit port only after truncation to `int32`, so explicit ports with a
value of 2^31 or more are not returned as written (see the
counterexample). -/
theorem c6_port_determination (s : String) (u : GoURL) (hu : urlParse s = some u) :
    (∀ p a, atoi (urlPortStr u) = some p →
       parseServiceURL s = .ok a → a.port = (p : Int)) ∧
    (∀ a, urlPortStr u = [] → u.scheme = String.toList "https" →
       parseServiceURL s = .ok a → a.port = 443) ∧
    (∀ a, urlPortStr u = [] → u.scheme = String.toList "http" →
       parseServiceURL s = .ok a → a.port = 80) ∧
    (urlPortStr u = [] → u.scheme ≠ String.toList "https" →
       u.scheme ≠ String.toList "http" →
       parseServiceURL s = .error (.unknownSchemeNoPort u.scheme)) ∧
    (∀ p (dns : DnsOracle) a, atoi (urlPortStr u) = some p →
       parseServiceURLMain dns s = .ok a → a.port = toInt32 p) := by
  refine ⟨?_, ?_, ?_, ?_, ?_⟩
  · intro p a hpa h
    have hne : urlPortStr u ≠ [] := by
      intro contra
      rw [contra] at hpa
      simp [atoi] at hpa
    have hrp : resolvePort u = .ok p := by
      simp [resolvePort, defaultPort, hne, hpa]
    have h' : resolveStrict u = .ok a := by
      simpa [parseServiceURL, hu] using h
    exact (resolveStrict_ok_port u p a hrp h').1
  · intro a hport hscheme h
    have hrp : resolvePort u = .ok 443 := by
      have hd : defaultPort u = .ok (String.toList "443") := by
        simp [defaultPort, hport, hscheme]
      simp only [resolvePort, hd]
      decide
    have h' : resolveStrict u = .ok a := by
      simpa [parseServiceURL, hu] using h
    exact (resolveStrict_ok_port u 443 a hrp h').1
  · intro a hport hscheme h
    have hrp : resolvePort u = .ok 80 := by
      have hd : defaultPort u = .ok (String.toList "80") := by
        simp [defaultPort, hport, hscheme]
      simp only [resolvePort, hd]
      decide
    have h' : resolveStrict u = .ok a := by
      simpa [parseServiceURL, hu] using h
    exact (resolveStrict_ok_port u 80 a hrp h').1
  · intro hport hs1 hs2
    have hrp : resolvePort u = .error (.unknownSchemeNoPort u.scheme) := by
      have hd : defaultPort u = .error (.unknownSchemeNoPort u.scheme) := by
        unfold defaultPort
        rw [if_neg (by simp [hport]), if_neg hs1, if_neg hs2]
      simp [resolvePort, hd]
    simp only [parseServiceURL, hu]
    simp [resolveStrict, hrp]
  · intro p dns a hpa h
    have hne : urlPortStr u ≠ [] := by
      intro contra
      rw [contra] at hpa
      simp [atoi] at hpa
    have hrp : resolvePort u = .ok p := by
      simp [resolvePort, defaultPort, hne, hpa]
    have h' : resolveMain dns u = .ok a := by
      simpa [parseServiceURLMain, hu] using h
    exact resolveMain_ok_port dns u p a hrp h'

/-- C6 witness: an explicit port 8443 is returned exactly, and a portless
`foo` scheme fails with the unknown-scheme error. -/
theorem c6_port_determination_witness :
    (EndpointAddress.mk "10.0.0.5" 8443).port = ((8443 : Nat) : Int) ∧
    parseServiceURL "foo://10.0.0.5" =
      .error (.unknownSchemeNoPort (String.toList "foo")) :=
  ⟨(c6_port_determination "https://10.0.0.5:8443"
      ⟨String.toList "https", String.toList "10.0.0.5:8443"⟩ (by decide)).1
      8443 ⟨"10.0.0.5", 8443⟩ (by decide) (by decide),
   (c6_port_determination "foo://10.0.0.5"
      ⟨String.toList "foo", String.toList "10.0.0.5"⟩ (by decide)).2.2.2.1
      (by decide) (by decide) (by decide)⟩

/-- C6 counterexample: the `src/main.go` resolver truncates the parsed port
to `int32`, so the well-formed URL with the explicit port 4294967376 (no
range check in that variant) resolves to port 80, not to the explicit
port. -/
theorem c6_counterexample :
    parseServiceURLMain (fun _ => .error ()) "http://10.0.0.5:4294967376" =
      .ok ⟨"10.0.0.5", 80⟩ ∧ (80 : Int) ≠ 4294967376 := by
  constructor
  · decide
  · decide

/-! ## C1 -/

/-- C1 (amended): `run` reconciles the two intents sequentially with
fail-fast semantics: a failure reconciling the dashboard intent aborts the
cycle before the prometheus intent is attempted and only the dashboard
failure is reported; a failure on the prometheus intent happens after the
dashboard intent has already been reconciled (its API calls are in the
trace), and the cycle then reports the prometheus failure. -/
theorem c1_sequential_fail_fast (cfg : RunCfg) (api : SliceApi) (svc : MgrServices)
    (hd : cfg.dashboardSlice ≠ "") (hp : cfg.prometheusSlice ≠ "") :
    (∀ addr e tr, svc.dashboard ≠ "" →
       parseServiceURL svc.dashboard = .ok addr →
       updateEndpointSlice api cfg.namespc cfg.serviceName cfg.dashboardSlice
         "dashboard" addr = (.error e, tr) →
       run cfg api (.ok svc) = (.error (.updateSliceFailed "dashboard" e), tr)) ∧
    (∀ addr tr addr2 e2 tr2, svc.dashboard ≠ "" →
       parseServiceURL svc.dashboard = .ok addr →
       updateEndpointSlice api cfg.namespc cfg.serviceName cfg.dashboardSlice
         "dashboard" addr = (.ok (), tr) →
       svc.prometheus ≠ "" →
       parseServiceURL svc.prometheus = .ok addr2 →
       updateEndpointSlice api cfg.namespc cfg.serviceName cfg.prometheusSlice
         "prometheus" addr2 = (.error e2, tr2) →
       run cfg api (.ok svc) =
         (.error (.updateSliceFailed "prometheus" e2), tr ++ tr2)) := by
  constructor
  · intro addr e tr hsd hpd hupd
    simp [run, hd, hsd, hpd, hupd]
  · intro addr tr addr2 e2 tr2 hsd hpd hupd hsp hpp hupp
    simp [run, hd, hp, hsd, hpd, hupd, hsp, hpp, hupp]

/-- C1 witness: with a healthy dashboard and a prometheus API failure, the
dashboard intent is reconciled first (its calls appear in the trace) and
the prometheus failure is reported. -/
theorem c1_sequential_fail_fast_witness :
    run ⟨"ceph", "ceph-mgr", "dash", "prom"⟩
      ⟨fun n => if n = "prom" then .err else .notFound,
        fun _ => .ok, fun _ => .ok⟩
      (.ok ⟨"https://10.0.0.5:8443", "http://10.0.0.6:9283"⟩) =
      (.error (.updateSliceFailed "prometheus" .getFailed),
        [.get "dash",
          .update (desiredSlice "ceph" "ceph-mgr" "dash" "dashboard" ⟨"10.0.0.5", 8443⟩),
          .get "prom"]) :=
  (c1_sequential_fail_fast ⟨"ceph", "ceph-mgr", "dash", "prom"⟩
      ⟨fun n => if n = "prom" then .err else .notFound,
        fun _ => .ok, fun _ => .ok⟩
      ⟨"https://10.0.0.5:8443", "http://10.0.0.6:9283"⟩
      (by decide) (by decide)).2
    ⟨"10.0.0.5", 8443⟩
    [.get "dash",
      .update (desiredSlice "ceph" "ceph-mgr" "dash" "dashboard" ⟨"10.0.0.5", 8443⟩)]
    ⟨"10.0.0.6", 9283⟩ .getFailed [.get "prom"]
    (by decide) (by decide) (by decide) (by decide) (by decide) (by decide)

/-- C1 counterexample: a transient API failure on the dashboard intent
aborts the cycle — the prometheus intent, although configured with a valid
URL, is never attempted and only the dashboard outcome is reported. -/
theorem c1_counterexample :
    run ⟨"ceph", "ceph-mgr", "dash", "prom"⟩
      ⟨fun n => if n = "dash" then .err else .notFound,
        fun _ => .notFound, fun _ => .ok⟩
      (.ok ⟨"https://10.0.0.5:8443", "http://10.0.0.6:9283"⟩) =
      (.error (.updateSliceFailed "dashboard" .getFailed), [.get "dash"]) := by
  decide

/-! ## C2 -/

/-- C2 (amended): with both services configured and prometheus absent from
discovery, the cycle fails naming prometheus — but the dashboard intent
has already been reconciled in the same cycle (its API calls are in the
returned trace): validation and application are interleaved per service,
not an all-or-nothing build phase. -/
theorem c2_prometheus_unavailable_after_dashboard (cfg : RunCfg) (api : SliceApi)
    (svc : MgrServices) (addr : EndpointAddress) (tr : List ApiCall)
    (hd : cfg.dashboardSlice ≠ "") (hp : cfg.prometheusSlice ≠ "")
    (hsd : svc.dashboard ≠ "")
    (hpd : parseServiceURL svc.dashboard = .ok addr)
    (hupd : updateEndpointSlice api cfg.namespc cfg.serviceName cfg.dashboardSlice
       "dashboard" addr = (.ok (), tr))
    (hsp : svc.prometheus = "") :
    run cfg api (.ok svc) = (.error (.serviceURLNotFound "prometheus"), tr) := by
  simp [run, hd, hp, hsd, hpd, hupd, hsp]

/-- C2 witness: the concrete end-to-end example of the claim, showing the
prometheus failure reported together with the already-performed dashboard
write. -/
theorem c2_prometheus_unavailable_after_dashboard_witness :
    run ⟨"ceph", "ceph-mgr", "dash", "prom"⟩
      ⟨fun _ => .notFound, fun _ => .notFound, fun _ => .ok⟩
      (.ok ⟨"https://10.0.0.5:8443", ""⟩) =
      (.error (.serviceURLNotFound "prometheus"),
        [.get "dash",
          .update (desiredSlice "ceph" "ceph-mgr" "dash" "dashboard" ⟨"10.0.0.5", 8443⟩),
          .create (desiredSlice "ceph" "ceph-mgr" "dash" "dashboard" ⟨"10.0.0.5", 8443⟩)]) :=
  c2_prometheus_unavailable_after_dashboard
    ⟨"ceph", "ceph-mgr", "dash", "prom"⟩
    ⟨fun _ => .notFound, fun _ => .notFound, fun _ => .ok⟩
    ⟨"https://10.0.0.5:8443", ""⟩ ⟨"10.0.0.5", 8443⟩
    [.get "dash",
      .update (desiredSlice "ceph" "ceph-mgr" "dash" "dashboard" ⟨"10.0.0.5", 8443⟩),
      .create (desiredSlice "ceph" "ceph-mgr" "dash" "dashboard" ⟨"10.0.0.5", 8443⟩)]
    (by decide) (by decide) (by decide) (by decide) (by decide) (by decide)

/-- C2 counterexample: `{"dashboard":"https://10.0.0.5:8443","prometheus":""}`
with both slices configured: the cycle fails naming prometheus, yet the
dashboard EndpointSlice has been written (an update attempt and a create)
in the same cycle — the build phase is not all-or-nothing. -/
theorem c2_counterexample :
    run ⟨"ceph", "ceph-mgr", "dash2", "prom2"⟩
      ⟨fun _ => .notFound, fun _ => .notFound, fun _ => .ok⟩
      (.ok ⟨"https://10.0.0.5:8443", ""⟩) =
      (.error (.serviceURLNotFound "prometheus"),
        [.get "dash2",
          .update (desiredSlice "ceph" "ceph-mgr" "dash2" "dashboard" ⟨"10.0.0.5", 8443⟩),
          .create (desiredSlice "ceph" "ceph-mgr" "dash2" "dashboard" ⟨"10.0.0.5", 8443⟩)]) := by
  decide
